import Mathlib

/-!
Shallow embedding of the peer node of `src/lib/peer.js` (the connection
lifecycle and message-dispatch core).  Pure data is embedded directly;
the external collaborators that are not under `src/` (the Codec
`Message.fromRaw`/`fromVector`, the Identity `key._sign`, and the
JavaScript builtins `JSON.parse`/`JSON.stringify`) are modelled from the
spec where noted.  Stateful methods become explicit functions from a
`PeerState` to a result record carrying the new state, the optional
reply, the emitted events and the log lines.
-/

/-- Message type constants from the top of `src/lib/peer.js`. -/
def P2P_IDENT_REQUEST : Nat := 0x01

def P2P_IDENT_RESPONSE : Nat := 0x11

def P2P_ROOT : Nat := 0x00000000

def P2P_PING : Nat := 0x00000012

def P2P_PONG : Nat := 0x00000013

def P2P_INSTRUCTION : Nat := 0x00000020

def P2P_STATE_COMMITTMENT : Nat := 0x00000032

def P2P_STATE_CHANGE : Nat := 0x00000033

/-- Modelled from the spec: a decoded Codec frame (`src/lib/message.js`
is not under `src/`).  Per spec §3 a Message has a numeric `type`, an
optional correlation token `id` (used by PING/PONG; the empty string
stands for an absent token) and a payload `data`. -/
structure Message where
  type : Nat
  id : String
  data : String
deriving Repr, DecidableEq

/-- Modelled from the spec: `Message.fromVector([t, v])` of the external
Codec builds a typed frame from a `[type, value]` vector; the value `v`
is the payload the frame carries. -/
def Message.fromVector (t : Nat) (v : String) : Message :=
  { type := t, id := "", data := v }

/-- JSON values as produced by the JavaScript builtin `JSON.parse`.
Numbers are restricted to integers (floating point is outside the
shallow embedding; every payload the protocol claims exercise is
integral). -/
inductive Json where
  | null : Json
  | bool (b : Bool) : Json
  | num (n : Int) : Json
  | str (s : String) : Json
  | arr (xs : List Json) : Json
  | obj (kvs : List (String × Json)) : Json

/-- JavaScript truthiness of a parsed JSON value: `null`, `false`, `0`
and the empty string are falsy, everything else is truthy.  This is the
semantics of the `if (changes)` guard in `_handleMessage`. -/
def Json.truthy : Json → Bool
  | .null => false
  | .bool b => b
  | .num n => decide (n ≠ 0)
  | .str s => decide (s ≠ "")
  | .arr _ => true
  | .obj _ => true

def quoteChar : Char := Char.ofNat 34

def backslashChar : Char := Char.ofNat 92

def lbrackChar : Char := Char.ofNat 91

def rbrackChar : Char := Char.ofNat 93

def lcurlChar : Char := Char.ofNat 123

def rcurlChar : Char := Char.ofNat 125

def commaChar : Char := Char.ofNat 44

def colonChar : Char := Char.ofNat 58

def minusChar : Char := Char.ofNat 45

/-- Drop leading JSON whitespace (space, tab, carriage return, line
feed — exactly the characters `Char.isWhitespace` accepts). -/
def skipWs : List Char → List Char
  | [] => []
  | c :: cs => if c.isWhitespace then skipWs cs else c :: cs

/-- Parse the body of a JSON string after the opening quote, up to and
consuming the closing quote.  Escape sequences are not modelled (no
claim exercises them); a backslash fails the parse. -/
def parseStringBody : List Char → Option (String × List Char)
  | [] => none
  | c :: cs =>
    if c = quoteChar then some ("", cs)
    else if c = backslashChar then none
    else
      match parseStringBody cs with
      | some (s, rest) => some (String.mk (c :: s.data), rest)
      | none => none

/-- Split a leading run of decimal digits from the rest. -/
def takeDigits : List Char → (List Char × List Char)
  | [] => ([], [])
  | c :: cs =>
    if c.isDigit then
      let p := takeDigits cs
      (c :: p.1, p.2)
    else ([], c :: cs)

def digitsToNat (ds : List Char) : Nat :=
  ds.foldl (fun acc c => acc * 10 + (c.toNat - 48)) 0

mutual

/-- Modelled from the spec: the recursive core of the JavaScript builtin
`JSON.parse` ("parse payload as JSON", §4.4), restricted to integral
numbers and escape-free strings.  Fuel-indexed; `jsonParse` supplies
ample fuel. -/
def parseVal : Nat → List Char → Option (Json × List Char)
  | 0, _ => none
  | Nat.succ fuel, cs0 =>
    match skipWs cs0 with
    | [] => none
    | c :: cs =>
      if c = quoteChar then
        match parseStringBody cs with
        | some (s, rest) => some (Json.str s, rest)
        | none => none
      else if c = lbrackChar then
        match skipWs cs with
        | [] => none
        | d :: cs2 =>
          if d = rbrackChar then some (Json.arr [], cs2)
          else
            match parseArrItems fuel (d :: cs2) with
            | some (vs, rest) => some (Json.arr vs, rest)
            | none => none
      else if c = lcurlChar then
        match skipWs cs with
        | [] => none
        | d :: cs2 =>
          if d = rcurlChar then some (Json.obj [], cs2)
          else
            match parseObjItems fuel (d :: cs2) with
            | some (kvs, rest) => some (Json.obj kvs, rest)
            | none => none
      else if c = 'n' then
        match cs with
        | 'u' :: 'l' :: 'l' :: rest => some (Json.null, rest)
        | _ => none
      else if c = 't' then
        match cs with
        | 'r' :: 'u' :: 'e' :: rest => some (Json.bool true, rest)
        | _ => none
      else if c = 'f' then
        match cs with
        | 'a' :: 'l' :: 's' :: 'e' :: rest => some (Json.bool false, rest)
        | _ => none
      else if c = minusChar then
        match takeDigits cs with
        | ([], _) => none
        | (ds, rest) => some (Json.num (-(digitsToNat ds : Int)), rest)
      else if c.isDigit then
        match takeDigits (c :: cs) with
        | ([], _) => none
        | (ds, rest) => some (Json.num (digitsToNat ds : Int), rest)
      else none

/-- One or more comma-separated array items, consuming the closing
bracket. -/
def parseArrItems : Nat → List Char → Option (List Json × List Char)
  | 0, _ => none
  | Nat.succ fuel, cs =>
    match parseVal fuel cs with
    | none => none
    | some (v, rest) =>
      match skipWs rest with
      | [] => none
      | c :: rest2 =>
        if c = commaChar then
          match parseArrItems fuel rest2 with
          | some (vs, rest3) => some (v :: vs, rest3)
          | none => none
        else if c = rbrackChar then some ([v], rest2)
        else none

/-- One or more comma-separated object members, consuming the closing
brace. -/
def parseObjItems : Nat → List Char → Option (List (String × Json) × List Char)
  | 0, _ => none
  | Nat.succ fuel, cs =>
    match skipWs cs with
    | [] => none
    | c :: cs1 =>
      if c = quoteChar then
        match parseStringBody cs1 with
        | none => none
        | some (k, rest) =>
          match skipWs rest with
          | [] => none
          | d :: rest2 =>
            if d = colonChar then
              match parseVal fuel rest2 with
              | none => none
              | some (v, rest3) =>
                match skipWs rest3 with
                | [] => none
                | e :: rest4 =>
                  if e = commaChar then
                    match parseObjItems fuel rest4 with
                    | some (kvs, rest5) => some ((k, v) :: kvs, rest5)
                    | none => none
                  else if e = rcurlChar then some ([(k, v)], rest4)
                  else none
            else none
      else none

end

/-- Modelled from the spec: the JavaScript builtin `JSON.parse` used by
the STATE_CHANGE branch of `_handleMessage`; `none` models the thrown
`SyntaxError` on invalid input (trailing non-whitespace is an error). -/
def jsonParse (s : String) : Option Json :=
  match parseVal (s.length + 1) s.data with
  | some (v, rest) => if skipWs rest = [] then some v else none
  | none => none

mutual

/-- Modelled from the spec: the JavaScript builtin `JSON.stringify` used
by `broadcast` to serialize non-string payloads, on the same integral,
escape-free JSON fragment as `jsonParse`. -/
def Json.stringify : Json → String
  | .null => "null"
  | .bool true => "true"
  | .bool false => "false"
  | .num n => toString n
  | .str s => "\x22" ++ s ++ "\x22"
  | .arr xs => "\x5b" ++ stringifyItems xs ++ "\x5d"
  | .obj kvs => "\x7b" ++ stringifyMembers kvs ++ "\x7d"

def stringifyItems : List Json → String
  | [] => ""
  | [x] => Json.stringify x
  | x :: xs => Json.stringify x ++ "," ++ stringifyItems xs

def stringifyMembers : List (String × Json) → String
  | [] => ""
  | [kv] => "\x22" ++ kv.1 ++ "\x22:" ++ Json.stringify kv.2
  | kv :: kvs => "\x22" ++ kv.1 ++ "\x22:" ++ Json.stringify kv.2 ++ "," ++ stringifyMembers kvs

end

def spaceChar : Char := Char.ofNat 32

/-- Split a character list on a separator character; every occurrence
of the separator starts a new group, so leading, trailing and adjacent
separators produce empty groups. -/
def splitChars (sep : Char) : List Char → List (List Char)
  | [] => [[]]
  | c :: cs =>
    let r := splitChars sep cs
    if c = sep then [] :: r
    else
      match r with
      | [] => [[c]]
      | g :: gs => (c :: g) :: gs

/-- Model of the JavaScript `String.split` with a single-character
separator, as used by `_connect` (`address.split(':')`) and the
INSTRUCTION branch of `_handleMessage` (`message.data.split(' ')`):
`"a:b"` gives `["a", "b"]`, `":"` gives `["", ""]`, `"::1:7777"` gives
`["", "", "1", "7777"]` and the empty string gives `[""]`. -/
def jsSplit (s : String) (sep : Char) : List String :=
  (splitChars sep s.data).map String.mk

/-- One connection table entry: the transport handle created by
`new net.Socket()` (dial) or accepted by the server, with the two status
flags `broadcast` consults (`conn.connecting`, `conn._hadError`). -/
structure Conn where
  connecting : Bool
  _hadError : Bool
deriving Repr, DecidableEq

/-- One record of the known-peers table: `{ id: message.data }`. -/
structure PeerRec where
  id : String
deriving Repr, DecidableEq

/-- The mutable state of a `Peer` instance: identity, bind address, the
connection table (an insertion-ordered map from `"host:port"` keys to
connections, as a JavaScript object literal behaves), the known-peers
table, the externally-owned `state` snapshot answered to ROOT queries,
and the listening server handle (`none` before `listen()` ran). -/
structure PeerState where
  id : String
  address : String
  port : Nat
  connections : List (String × Conn)
  peers : List (String × PeerRec)
  state : String
  server : Option Unit
deriving Repr, DecidableEq

/-- Events the dispatcher emits to the host application. -/
inductive PEvent where
  | peer (p : PeerRec) : PEvent
  | changes (v : Json) : PEvent

/-- Result of one `_handleMessage` dispatch: the possibly-updated peer
state, the JavaScript return value (`some` reply, or `none` for the
`null`/`false` returns), the events emitted and the log lines. -/
structure HandleResult where
  st : PeerState
  response : Option Message
  events : List PEvent
  logs : List String

/-- Embedding of `Peer.prototype._handleMessage` (src/lib/peer.js,
lines 192-259).  `sign` models the external `self.key._sign` composed
with the hex encoding of its result (`src/lib/key.js` is not under
`src/`); `message` is `none` when the caller passed the falsy result of
a failed parse, matching the `if (!message) return false` guard. -/
def _handleMessage (sign : String → String) (self : PeerState) (message : Option Message) : HandleResult :=
  match message with
  | none => { st := self, response := none, events := [], logs := [] }
  | some m =>
    if m.type = P2P_IDENT_REQUEST then
      { st := self
        response := some (Message.fromVector P2P_IDENT_RESPONSE self.id)
        events := []
        logs := [] }
    else if m.type = P2P_IDENT_RESPONSE then
      if (self.peers.lookup m.data).isNone then
        let peer : PeerRec := { id := m.data }
        { st := { self with peers := self.peers ++ [(m.data, peer)] }
          response := none
          events := [PEvent.peer peer]
          logs := [] }
      else
        { st := self, response := none, events := [], logs := [] }
    else if m.type = P2P_STATE_CHANGE then
      let log0 := "type was STATE_CHANGE, change is: " ++ m.data
      match jsonParse m.data with
      | none =>
        { st := self
          response := none
          events := []
          logs := [log0, "Could not parse change: " ++ m.data] }
      | some changes =>
        if changes.truthy then
          { st := self, response := none, events := [PEvent.changes changes], logs := [log0] }
        else
          { st := self, response := none, events := [], logs := [log0] }
    else if m.type = P2P_ROOT then
      { st := self
        response := some (Message.fromVector P2P_STATE_COMMITTMENT self.state)
        events := []
        logs := ["type was ROOT, sending state root", "type was ROOT, state was: " ++ self.state] }
    else if m.type = P2P_PING then
      { st := self
        response := some (Message.fromVector P2P_PONG m.id)
        events := []
        logs := ["type was PING (" ++ m.id ++ "), sending PONG"] }
    else if m.type = P2P_INSTRUCTION then
      let stack := jsSplit m.data spaceChar
      match stack.get? 1 with
      | some "SIGN" =>
        let script := sign (stack.headD "") ++ " CHECKSIG"
        { st := self
          response := some (Message.fromVector P2P_INSTRUCTION script)
          events := []
          logs := [] }
      | _ =>
        { st := self
          response := none
          events := []
          logs := ["[PEER] unhandled instruction"] }
    else
      { st := self
        response := none
        events := []
        logs := ["[PEER] unhandled message type " ++ toString m.type] }

/-- Embedding of `Peer.prototype._parseMessage`: `decode` models
`Message.fromRaw` of the external Codec, returning `none` where the
JavaScript throws (caught and logged, leaving `message` null); the
`none` input models falsy `data`, matching `if (!data) return false`. -/
def _parseMessage (decode : String → Option Message) (data : Option String) : Option Message :=
  match data with
  | none => none
  | some d => decode d

/-- Result of one inbound `data` event on a connection. -/
structure DataResult where
  destroyed : Bool
  written : List Message
  st : PeerState
  events : List PEvent

/-- Embedding of the inbound-data handler installed identically on
dialed connections (`_connect`, lines 81-90) and accepted connections
(`_handleConnection`, lines 146-155): parse, dispatch, destroy the
connection when the parse failed, write the encoded reply when one was
produced. -/
def dataHandler (decode : String → Option Message) (sign : String → String)
    (self : PeerState) (data : Option String) : DataResult :=
  let message := _parseMessage decode data
  let r := _handleMessage sign self message
  { destroyed := message.isNone
    written := match r.response with
      | some resp => [resp]
      | none => []
    st := r.st
    events := r.events }

/-- Result of one `_connect` call: the new state, the JavaScript return
value (`none` models the `undefined` returned through
`self.debug(...)`), whether a fresh socket was created, and the log
lines. -/
structure ConnectResult where
  st : PeerState
  ret : Option Conn
  newSocket : Bool
  logs : List String

/-- A freshly dialed `new net.Socket()` after `.connect(...)` was
initiated: mid-connect, no error yet. -/
def freshSocket : Conn := { connecting := true, _hadError := false }

/-- Embedding of `Peer.prototype._connect` (src/lib/peer.js, lines
65-111): split the address on a colon; when the split does not yield
exactly two parts, log and return `undefined`; when the address is
already a key of the connection table, return the existing entry;
otherwise create a socket, register it under the address (a new
JavaScript object key appends in insertion order) and initiate the
connect. -/
def _connect (self : PeerState) (address : String) : ConnectResult :=
  let parts := jsSplit address colonChar
  let known := self.connections.map Prod.fst
  if parts.length ≠ 2 then
    { st := self, ret := none, newSocket := false, logs := ["Invalid address: " ++ address] }
  else if known.contains address then
    { st := self, ret := self.connections.lookup address, newSocket := false, logs := [] }
  else
    { st := { self with connections := self.connections ++ [(address, freshSocket)] }
      ret := some freshSocket
      newSocket := true
      logs := [] }

/-- Payloads passed to `broadcast`: either already a string, or any
other JavaScript value, which `JSON.stringify` serializes first. -/
inductive JSVal where
  | str (s : String) : JSVal
  | val (j : Json) : JSVal

/-- The serialization step at the top of `broadcast`:
`if (typeof message !== 'string') message = JSON.stringify(message)`. -/
def serializePayload : JSVal → String
  | .str s => s
  | .val j => Json.stringify j

/-- Embedding of `Peer.prototype.broadcast` (src/lib/peer.js, lines
161-172): serialize the payload, then for each connection in table
order that is not mid-connect and has not errored, write one
STATE_CHANGE frame wrapping it.  The result is the ordered list of
(address, frame) writes; the peer state is not modified.
`broadcastEntry` is the per-connection body of the loop: skip a
connection that is mid-connect or has errored, else write one frame. -/
def broadcastEntry (s : String) (ic : String × Conn) : Option (String × Message) :=
  if ic.2.connecting = false ∧ ic.2._hadError = false then
    some (ic.1, Message.fromVector P2P_STATE_CHANGE s)
  else none

def broadcast (self : PeerState) (message : JSVal) : List (String × Message) :=
  self.connections.filterMap (broadcastEntry (serializePayload message))

/-- Embedding of `Peer.prototype.listen`: create the listening server.
The bind and the `ready` event are asynchronous and outside the
synchronous state change modelled here. -/
def listen (self : PeerState) : PeerState :=
  { self with server := some () }

/-- Embedding of `Peer.prototype.start`: `if (!this.server) this.listen()`. -/
def start (self : PeerState) : PeerState :=
  if self.server.isNone then listen self else self

/-- Embedding of `Peer.prototype.stop`: `this.server.close()`.  When no
server exists (the peer never listened), reading `.close` of
`undefined` throws a TypeError, modelled as the `Except.error` case;
otherwise the listening socket is closed and `this.server` stays
assigned. -/
def stop (self : PeerState) : Except String PeerState :=
  match self.server with
  | none => Except.error "TypeError: cannot read property close of undefined"
  | some _ => Except.ok self

/-- A peer state used to instantiate witnesses at concrete inputs. -/
def examplePeer : PeerState :=
  { id := "1f2e3d"
    address := "0.0.0.0"
    port := 7777
    connections := []
    peers := []
    state := "root"
    server := none }

/-- A successful association-list lookup means the key occurs among the
mapped-out keys. -/
lemma lookup_some_mem_keys {α : Type} {l : List (String × α)} {a : String} {c : α}
    (h : l.lookup a = some c) : a ∈ l.map Prod.fst := by
  induction l with
  | nil => simp [List.lookup] at h
  | cons hd tl ih =>
    rw [List.lookup] at h
    by_cases hk : a == hd.1
    · simp only [List.map_cons, List.mem_cons]
      exact Or.inl (eq_of_beq hk)
    · simp only [hk, Bool.false_eq_true, if_false] at h
      exact List.mem_cons_of_mem _ (ih h)

/-- C1: for every inbound data event on any connection (dialed or
accepted), if the Codec cannot decode the bytes into a message, the
connection is destroyed, no reply is written, and no dispatch of that
input occurs: the peer state is unchanged and no event is emitted. -/
theorem dataHandler_decode_failure (decode : String → Option Message) (sign : String → String)
    (self : PeerState) (data : Option String)
    (h : _parseMessage decode data = none) :
    dataHandler decode sign self data =
      { destroyed := true, written := [], st := self, events := [] } := by
  simp only [dataHandler, h, _handleMessage, Option.isNone_none]

theorem dataHandler_decode_failure_witness :
    _parseMessage (fun _ => none) (some "junk") = none ∧
    dataHandler (fun _ => none) (fun s => s) examplePeer (some "junk") =
      { destroyed := true, written := [], st := examplePeer, events := [] } :=
  ⟨rfl, dataHandler_decode_failure (fun _ => none) (fun s => s) examplePeer (some "junk") rfl⟩

/-- C3: for every decoded message of type PING carrying correlation id
X, dispatch produces exactly one reply, of type PONG, carrying the same
correlation id X verbatim, and changes no peer state. -/
theorem handleMessage_ping_pong (sign : String → String) (self : PeerState) (m : Message)
    (h : m.type = P2P_PING) :
    _handleMessage sign self (some m) =
      { st := self
        response := some (Message.fromVector P2P_PONG m.id)
        events := []
        logs := ["type was PING (" ++ m.id ++ "), sending PONG"] } ∧
    (Message.fromVector P2P_PONG m.id).type = P2P_PONG ∧
    (Message.fromVector P2P_PONG m.id).data = m.id := by
  refine ⟨?_, rfl, rfl⟩
  simp [_handleMessage, h, P2P_PING, P2P_IDENT_REQUEST, P2P_IDENT_RESPONSE,
    P2P_STATE_CHANGE, P2P_ROOT]

def pingMsg : Message := { type := P2P_PING, id := "corr-42", data := "" }

theorem handleMessage_ping_pong_witness :
    pingMsg.type = P2P_PING ∧
    _handleMessage (fun s => s) examplePeer (some pingMsg) =
      { st := examplePeer
        response := some (Message.fromVector P2P_PONG pingMsg.id)
        events := []
        logs := ["type was PING (" ++ pingMsg.id ++ "), sending PONG"] } ∧
    (Message.fromVector P2P_PONG pingMsg.id).type = P2P_PONG ∧
    (Message.fromVector P2P_PONG pingMsg.id).data = pingMsg.id :=
  ⟨rfl, handleMessage_ping_pong (fun s => s) examplePeer pingMsg rfl⟩

/-- C4: for every decoded message of type IDENT_REQUEST, regardless of
its payload, dispatch produces exactly one reply, of type
IDENT_RESPONSE, whose payload is the local peer's own id, and changes no
peer state. -/
theorem handleMessage_ident_request (sign : String → String) (self : PeerState) (m : Message)
    (h : m.type = P2P_IDENT_REQUEST) :
    _handleMessage sign self (some m) =
      { st := self
        response := some (Message.fromVector P2P_IDENT_RESPONSE self.id)
        events := []
        logs := [] } ∧
    (Message.fromVector P2P_IDENT_RESPONSE self.id).type = P2P_IDENT_RESPONSE ∧
    (Message.fromVector P2P_IDENT_RESPONSE self.id).data = self.id := by
  refine ⟨?_, rfl, rfl⟩
  simp [_handleMessage, h]

def identReqMsg : Message := { type := P2P_IDENT_REQUEST, id := "", data := "someone-else" }

theorem handleMessage_ident_request_witness :
    identReqMsg.type = P2P_IDENT_REQUEST ∧
    _handleMessage (fun s => s) examplePeer (some identReqMsg) =
      { st := examplePeer
        response := some (Message.fromVector P2P_IDENT_RESPONSE examplePeer.id)
        events := []
        logs := [] } ∧
    (Message.fromVector P2P_IDENT_RESPONSE examplePeer.id).type = P2P_IDENT_RESPONSE ∧
    (Message.fromVector P2P_IDENT_RESPONSE examplePeer.id).data = examplePeer.id :=
  ⟨rfl, handleMessage_ident_request (fun s => s) examplePeer identReqMsg rfl⟩

def stateChangeZero : Message := { type := P2P_STATE_CHANGE, id := "", data := "0" }

/-- C5 counterexample: the STATE_CHANGE payload "0" parses successfully
as JSON (to the number 0), yet dispatch emits zero `changes` events —
the `if (changes)` truthiness guard drops every falsy parsed value
(null, false, 0, the empty string), so "parses successfully" does not
imply "exactly one event". -/
theorem stateChange_falsy_json_cex :
    jsonParse stateChangeZero.data = some (Json.num 0) ∧
    (_handleMessage (fun s => s) examplePeer (some stateChangeZero)).events = [] ∧
    (_handleMessage (fun s => s) examplePeer (some stateChangeZero)).response = none :=
  ⟨rfl, rfl, rfl⟩

/-- C5 (amended): for every STATE_CHANGE message whose payload parses
as JSON to a truthy value, dispatch emits exactly one `changes` event
carrying the parsed value and produces zero reply messages. -/
theorem handleMessage_stateChange_truthy (sign : String → String) (self : PeerState)
    (m : Message) (v : Json) (ht : m.type = P2P_STATE_CHANGE)
    (hp : jsonParse m.data = some v) (htr : v.truthy = true) :
    _handleMessage sign self (some m) =
      { st := self
        response := none
        events := [PEvent.changes v]
        logs := ["type was STATE_CHANGE, change is: " ++ m.data] } := by
  simp [_handleMessage, ht, hp, htr, P2P_STATE_CHANGE, P2P_IDENT_REQUEST, P2P_IDENT_RESPONSE]

def stateChangeObj : Message :=
  { type := P2P_STATE_CHANGE, id := "", data := "\x7b\x22path\x22:\x22/a\x22,\x22value\x22:1\x7d" }

def parsedObj : Json := Json.obj [("path", Json.str "/a"), ("value", Json.num 1)]

theorem handleMessage_stateChange_truthy_witness :
    stateChangeObj.type = P2P_STATE_CHANGE ∧
    jsonParse stateChangeObj.data = some parsedObj ∧
    parsedObj.truthy = true ∧
    _handleMessage (fun s => s) examplePeer (some stateChangeObj) =
      { st := examplePeer
        response := none
        events := [PEvent.changes parsedObj]
        logs := ["type was STATE_CHANGE, change is: " ++ stateChangeObj.data] } :=
  ⟨rfl, rfl, rfl,
    handleMessage_stateChange_truthy (fun s => s) examplePeer stateChangeObj parsedObj rfl rfl rfl⟩

/-- C6: for every inbound data event whose frame decodes to a
STATE_CHANGE message with a payload that is not valid JSON, the handler
emits zero `changes` events, writes zero replies, does not destroy the
connection, and leaves the peer state unchanged. -/
theorem dataHandler_stateChange_bad_json (decode : String → Option Message)
    (sign : String → String) (self : PeerState) (data : Option String) (m : Message)
    (hd : _parseMessage decode data = some m) (ht : m.type = P2P_STATE_CHANGE)
    (hp : jsonParse m.data = none) :
    dataHandler decode sign self data =
      { destroyed := false, written := [], st := self, events := [] } := by
  simp only [dataHandler, hd]
  simp [_handleMessage, ht, hp, P2P_STATE_CHANGE, P2P_IDENT_REQUEST, P2P_IDENT_RESPONSE]

def rawCodec : String → Option Message :=
  fun d => some { type := P2P_STATE_CHANGE, id := "", data := d }

theorem dataHandler_stateChange_bad_json_witness :
    _parseMessage rawCodec (some "not json") =
      some { type := P2P_STATE_CHANGE, id := "", data := "not json" } ∧
    jsonParse "not json" = none ∧
    dataHandler rawCodec (fun s => s) examplePeer (some "not json") =
      { destroyed := false, written := [], st := examplePeer, events := [] } :=
  ⟨rfl, rfl,
    dataHandler_stateChange_bad_json rawCodec (fun s => s) examplePeer (some "not json")
      { type := P2P_STATE_CHANGE, id := "", data := "not json" } rfl rfl rfl⟩


def connA : Conn := { connecting := false, _hadError := false }

/-- A connection table holding an entry whose key does not split into
exactly two parts on a colon — exactly what `_handleConnection` stores
for an IPv6 remote such as `::1`, since it joins
`socket.remoteAddress` and `socket.remotePort` with a colon. -/
def peerWithIpv6 : PeerState :=
  { examplePeer with connections := [("::1:7777", connA)] }

/-- C2 counterexample: the address "::1:7777" is present as a key of
the connection table, yet `_connect` does not return the existing
entry — the `parts.length !== 2` validity check runs before the table
lookup, so the call logs the invalid-address diagnostic and returns
`undefined`. -/
theorem connect_existing_invalid_key_cex :
    peerWithIpv6.connections.lookup "::1:7777" = some connA ∧
    (_connect peerWithIpv6 "::1:7777").ret = none ∧
    (_connect peerWithIpv6 "::1:7777").logs = ["Invalid address: ::1:7777"] :=
  ⟨rfl, rfl, rfl⟩

/-- A successful association-list lookup returns a pair of the list. -/
lemma lookup_some_mem {α : Type} {l : List (String × α)} {a : String} {c : α}
    (h : l.lookup a = some c) : (a, c) ∈ l := by
  induction l with
  | nil => simp [List.lookup] at h
  | cons hd tl ih =>
    rw [List.lookup] at h
    by_cases hk : a == hd.1
    · simp only [hk] at h
      have ha : a = hd.1 := eq_of_beq hk
      have hc2 : hd.2 = c := Option.some.inj h
      subst ha
      rw [← hc2]
      simp
    · simp only [hk, Bool.false_eq_true, if_false] at h
      exact List.mem_cons_of_mem _ (ih h)

/-- C2 (amended): for every address already present as a key of the
connection table whose split on a colon yields exactly two parts,
`_connect` returns the existing Connection entry, changes no state,
and creates no socket. -/
theorem connect_existing_returns_entry (self : PeerState) (address : String) (c : Conn)
    (hl : self.connections.lookup address = some c)
    (hp : (jsSplit address colonChar).length = 2) :
    _connect self address = { st := self, ret := some c, newSocket := false, logs := [] } := by
  have hmem : address ∈ self.connections.map Prod.fst := lookup_some_mem_keys hl
  have hc : (self.connections.map Prod.fst).contains address = true :=
    List.elem_eq_true_of_mem hmem
  simp only [_connect, hp, hc, hl]
  simp [hl]

def peerWithLocal : PeerState :=
  { examplePeer with connections := [("localhost:7777", connA)] }

theorem connect_existing_returns_entry_witness :
    peerWithLocal.connections.lookup "localhost:7777" = some connA ∧
    (jsSplit "localhost:7777" colonChar).length = 2 ∧
    _connect peerWithLocal "localhost:7777" =
      { st := peerWithLocal, ret := some connA, newSocket := false, logs := [] } :=
  ⟨rfl, rfl, connect_existing_returns_entry peerWithLocal "localhost:7777" connA rfl rfl⟩

/-- C8 counterexample: the address "a:" splits into the two parts
["a", ""], one of them empty, so the claim's hypothesis (the split does
not yield exactly two non-empty parts) holds; yet `_connect` only
checks `parts.length !== 2`, so it proceeds: a socket is created and a
table entry is added — side effects do occur. -/
theorem connect_empty_part_cex :
    jsSplit "a:" colonChar = ["a", ""] ∧
    (_connect examplePeer "a:").newSocket = true ∧
    (_connect examplePeer "a:").st.connections = [("a:", freshSocket)] ∧
    examplePeer.connections = [] :=
  ⟨rfl, rfl, rfl, rfl⟩

/-- C8 (amended): for every address string whose split on a colon does
not yield exactly two parts (emptiness of the parts is not checked),
`_connect` logs the invalid-address diagnostic and returns with no side
effects: the state is unchanged and no socket is created. -/
theorem connect_invalid_address_no_effect (self : PeerState) (address : String)
    (h : (jsSplit address colonChar).length ≠ 2) :
    _connect self address =
      { st := self, ret := none, newSocket := false, logs := ["Invalid address: " ++ address] } := by
  simp [_connect, h]

theorem connect_invalid_address_no_effect_witness :
    (jsSplit "abc" colonChar).length ≠ 2 ∧
    _connect examplePeer "abc" =
      { st := examplePeer, ret := none, newSocket := false, logs := ["Invalid address: abc"] } :=
  ⟨by decide, connect_invalid_address_no_effect examplePeer "abc" (by decide)⟩

/-- No write of a broadcast targets an address that is not a key of the
table it iterated. -/
lemma writes_filter_not_mem (s : String) (b : String) (l : List (String × Conn))
    (h : b ∉ l.map Prod.fst) :
    (l.filterMap (broadcastEntry s)).filter (fun w => w.1 == b) = [] := by
  induction l with
  | nil => rfl
  | cons hd tl ih =>
    simp only [List.map_cons, List.mem_cons] at h
    push_neg at h
    obtain ⟨h1, h2⟩ := h
    simp only [List.filterMap_cons]
    cases hbe : broadcastEntry s hd with
    | none => exact ih h2
    | some w =>
      have hw1 : w.1 = hd.1 := by
        unfold broadcastEntry at hbe
        split at hbe
        · cases hbe
          rfl
        · cases hbe
      rw [List.filter_cons]
      have hne : (w.1 == b) = false := by
        rw [hw1]
        exact beq_eq_false_iff_ne.mpr (fun he => h1 he.symm)
      simp only [hne, Bool.false_eq_true, if_false]
      exact ih h2

/-- Each table entry receives exactly one frame when it is live and
none otherwise (the table is keyed uniquely). -/
lemma writes_filter_mem (s : String) (a : String) (c : Conn) (l : List (String × Conn))
    (hnd : (l.map Prod.fst).Nodup) (h : (a, c) ∈ l) :
    (l.filterMap (broadcastEntry s)).filter (fun w => w.1 == a) =
      if c.connecting = false ∧ c._hadError = false
      then [(a, Message.fromVector P2P_STATE_CHANGE s)] else [] := by
  induction l with
  | nil => cases h
  | cons hd tl ih =>
    rw [List.map_cons, List.nodup_cons] at hnd
    obtain ⟨hh, hnd2⟩ := hnd
    rcases List.mem_cons.mp h with heq | hmem
    · subst heq
      simp only [List.filterMap_cons]
      by_cases hlive : c.connecting = false ∧ c._hadError = false
      · have hbe : broadcastEntry s (a, c) = some (a, Message.fromVector P2P_STATE_CHANGE s) := by
          simp [broadcastEntry, hlive]
        rw [hbe, List.filter_cons]
        simp only [beq_self_eq_true, if_pos]
        rw [writes_filter_not_mem s a tl hh]
        simp [hlive]
      · have hbe : broadcastEntry s (a, c) = none := by
          simp only [broadcastEntry]
          rw [if_neg hlive]
        rw [hbe, writes_filter_not_mem s a tl hh]
        rw [if_neg hlive]
    · have ha : a ∈ tl.map Prod.fst := by
        have := List.mem_map_of_mem Prod.fst hmem
        simpa using this
      have hne : hd.1 ≠ a := fun he => hh (he ▸ ha)
      simp only [List.filterMap_cons]
      cases hbe : broadcastEntry s hd with
      | none => exact ih hnd2 hmem
      | some w =>
        have hw1 : w.1 = hd.1 := by
          unfold broadcastEntry at hbe
          split at hbe
          · cases hbe
            rfl
          · cases hbe
        rw [List.filter_cons]
        have hwne : (w.1 == a) = false := by
          rw [hw1]
          exact beq_eq_false_iff_ne.mpr hne
        simp only [hwne, Bool.false_eq_true, if_false]
        exact ih hnd2 hmem

/-- Every frame a broadcast writes wraps the serialized payload as a
STATE_CHANGE message. -/
lemma writes_frame (s : String) (l : List (String × Conn)) :
    ∀ w ∈ l.filterMap (broadcastEntry s), w.2 = Message.fromVector P2P_STATE_CHANGE s := by
  intro w hw
  rcases List.mem_filterMap.mp hw with ⟨ic, _, hbe⟩
  unfold broadcastEntry at hbe
  split at hbe
  · cases hbe
    rfl
  · cases hbe

def connectingPeer : PeerState :=
  { examplePeer with connections := [("h:1", freshSocket)] }

/-- C7 counterexample: a connection that is present in the table at
call time but still mid-connect (exactly the state `_connect` leaves a
just-dialed socket in) receives zero frames from `broadcast`, because
the loop skips any connection with `conn.connecting` or
`conn._hadError` set. -/
theorem broadcast_connecting_skipped_cex :
    connectingPeer.connections.map Prod.fst = ["h:1"] ∧
    broadcast connectingPeer (JSVal.str "x") = [] :=
  ⟨rfl, rfl⟩

/-- C7 (amended): `broadcast(p)` first serializes `p` to a JSON string
when it is not already a string, then writes exactly one STATE_CHANGE
frame wrapping it to each connection present in the table at call time
that is not mid-connect and has not errored, zero frames to every other
table entry, and zero frames to any address outside the table at call
time (hence none to a connection added afterward). -/
theorem broadcast_live_connections (self : PeerState) (p : JSVal) (a : String) (c : Conn)
    (hnd : (self.connections.map Prod.fst).Nodup) (hmem : (a, c) ∈ self.connections) :
    ((broadcast self p).filter (fun w => w.1 == a) =
      if c.connecting = false ∧ c._hadError = false
      then [(a, Message.fromVector P2P_STATE_CHANGE (serializePayload p))] else []) ∧
    (∀ b, b ∉ self.connections.map Prod.fst →
      (broadcast self p).filter (fun w => w.1 == b) = []) ∧
    (∀ w ∈ broadcast self p, w.2 = Message.fromVector P2P_STATE_CHANGE (serializePayload p)) := by
  refine ⟨?_, ?_, ?_⟩
  · exact writes_filter_mem (serializePayload p) a c self.connections hnd hmem
  · intro b hb
    exact writes_filter_not_mem (serializePayload p) b self.connections hb
  · exact writes_frame (serializePayload p) self.connections

def twoConnPeer : PeerState :=
  { examplePeer with connections := [("h:1", connA), ("h:2", freshSocket)] }

theorem broadcast_live_connections_witness :
    (twoConnPeer.connections.map Prod.fst).Nodup ∧
    ("h:1", connA) ∈ twoConnPeer.connections ∧
    ((broadcast twoConnPeer (JSVal.val (Json.num 1))).filter (fun w => w.1 == "h:1") =
      if connA.connecting = false ∧ connA._hadError = false
      then [("h:1", Message.fromVector P2P_STATE_CHANGE
        (serializePayload (JSVal.val (Json.num 1))))] else []) ∧
    (∀ b, b ∉ twoConnPeer.connections.map Prod.fst →
      (broadcast twoConnPeer (JSVal.val (Json.num 1))).filter (fun w => w.1 == b) = []) ∧
    (∀ w ∈ broadcast twoConnPeer (JSVal.val (Json.num 1)),
      w.2 = Message.fromVector P2P_STATE_CHANGE
        (serializePayload (JSVal.val (Json.num 1)))) :=
  ⟨by decide, by decide,
    broadcast_live_connections twoConnPeer (JSVal.val (Json.num 1)) "h:1" connA
      (by decide) (by decide)⟩

/-- C9 counterexample: `stop()` on a peer that never started reads
`.close` of the undefined `this.server` and propagates a TypeError to
the caller — an error surfaced through a propagated exception. -/
theorem stop_without_server_cex :
    examplePeer.server = none ∧
    stop examplePeer = Except.error "TypeError: cannot read property close of undefined" :=
  ⟨rfl, rfl⟩

/-- C9 (amended): every public operation of the Peer is total and
surfaces no error — `_connect`, `broadcast`, `_handleMessage`, the data
handler, `start` and `listen` are total functions of the state — with
the single exception of `stop()`, which propagates a TypeError when no
listening server exists; whenever a server exists, `stop` succeeds. -/
theorem stop_with_server_ok (self : PeerState) (h : self.server = some ()) :
    stop self = Except.ok self ∧ stop (start self) = Except.ok (start self) := by
  have hs : start self = self := by
    simp [start, h]
  rw [hs]
  constructor <;> simp [stop, h]

theorem stop_with_server_ok_witness :
    (listen examplePeer).server = some () ∧
    stop (listen examplePeer) = Except.ok (listen examplePeer) ∧
    stop (start (listen examplePeer)) = Except.ok (start (listen examplePeer)) :=
  ⟨rfl, (stop_with_server_ok (listen examplePeer) rfl).1,
    (stop_with_server_ok (listen examplePeer) rfl).2⟩

/-- Case analysis of the state component of a dispatch: the state is
unchanged except in the IDENT_RESPONSE branch, which appends one entry
to the peers table when the remote id is unseen. -/
lemma handleMessage_st_cases (sign : String → String) (self : PeerState)
    (message : Option Message) :
    (_handleMessage sign self message).st = self ∨
    ∃ m, message = some m ∧ m.type = P2P_IDENT_RESPONSE ∧
      (_handleMessage sign self message).st =
        { self with peers := self.peers ++ [(m.data, { id := m.data })] } := by
  cases message with
  | none => exact Or.inl rfl
  | some m =>
    simp only [_handleMessage]
    split_ifs with h1 h2 h3 h4 h5 h6 h7
    · exact Or.inl rfl
    · exact Or.inr ⟨m, rfl, h2, rfl⟩
    · exact Or.inl rfl
    · cases hj : jsonParse m.data with
      | none => simp [hj]
      | some v =>
        cases htr : v.truthy <;> simp [hj, htr]
    · exact Or.inl rfl
    · exact Or.inl rfl
    · cases hs : (jsSplit m.data spaceChar).get? 1 with
      | none => exact Or.inl rfl
      | some tok => split <;> exact Or.inl rfl
    · exact Or.inl rfl

/-- C10: for every decoded message of any type, dispatch never modifies
the connection table, the peer's id, address, or port; the state is
unchanged except possibly in the IDENT_RESPONSE branch, which at most
appends one entry to the peers table. -/
theorem handleMessage_frame_effect (sign : String → String) (self : PeerState)
    (message : Option Message) :
    ((_handleMessage sign self message).st.connections = self.connections ∧
     (_handleMessage sign self message).st.id = self.id ∧
     (_handleMessage sign self message).st.address = self.address ∧
     (_handleMessage sign self message).st.port = self.port) ∧
    ((_handleMessage sign self message).st = self ∨
     ∃ m e, message = some m ∧ m.type = P2P_IDENT_RESPONSE ∧
       (_handleMessage sign self message).st = { self with peers := self.peers ++ [e] }) := by
  rcases handleMessage_st_cases sign self message with h | ⟨m, hm, ht, hst⟩
  · rw [h]
    exact ⟨⟨rfl, rfl, rfl, rfl⟩, Or.inl rfl⟩
  · rw [hst]
    exact ⟨⟨rfl, rfl, rfl, rfl⟩, Or.inr ⟨m, (m.data, { id := m.data }), hm, ht, rfl⟩⟩
